import Mathlib

/-!
Verification of the configgen generator (src/main.rs): a shallow embedding of
its data structs, its four Tera templates, and the Init path of
Commands::execute, together with theorems settling the specified properties.

Conventions of the embedding:
  - Rust String is Lean String; Vec is List; tuples are products.
  - Rust str::split(',') is splitComma below (both return one empty piece
    for the empty input and keep empty pieces between adjacent separators);
    str::trim is trimStr below, dropping the characters with the Unicode
    White_Space property from both ends exactly as Rust does.  Both are
    written as structural recursion over the character list so that the
    kernel can evaluate them on concrete inputs.
  - The Tera templates are rendered with Tera whitespace control: a tag
    written as a brace-minus form strips all whitespace (newlines included)
    immediately before the tag.  Each render function below is the literal
    result of that stripping applied to the corresponding template constant.
  - The networks HashMap is serialized through serde_json, whose map type
    orders keys; it is embedded as a key-sorted association list.  The Init
    path only ever builds the single-entry map for app_network.
  - The serde_json settings value is only ever built by the program as a
    flat object of booleans and strings, embedded as SettingVal.
  - unreachable.. in a match arm aborts the process; the result type
    ExecResult has a constructor panicked for it, and wrote for the list of
    (path, contents) pairs handed to write_to_file.
-/

-- =====================
--     DATA STRUCTS
-- =====================

structure DockerfileSpec where
  base_image : String
  maintainer : String
  packages : List String
  workdir : String
  entrypoint : String
deriving Repr, DecidableEq

/-- The only shapes of serde_json values the program ever places in the
settings field: booleans and strings. -/
inductive SettingVal where
  | boolVal (b : Bool)
  | strVal (s : String)
deriving Repr, DecidableEq

structure DevContainerCustomizations where
  vscode_extensions : List String
  settings : List (String × SettingVal)
deriving Repr, DecidableEq

structure DevContainerSpec where
  name : String
  dockerfile_path : String
  remote_user : String
  customizations : DevContainerCustomizations
deriving Repr, DecidableEq

structure NetworkConfig where
  driver : String
deriving Repr, DecidableEq

structure ServiceSpec where
  name : String
  image : String
  ports : List String
  depends_on : List String
  environment : List (String × String)
  volumes : List String
deriving Repr, DecidableEq

structure DockerComposeSpec where
  services : List ServiceSpec
  networks : List (String × NetworkConfig)
deriving Repr, DecidableEq

structure BakeTarget where
  name : String
  context : String
  dockerfile : String
  tags : List String
deriving Repr, DecidableEq

structure DockerBakeSpec where
  group_name : String
  targets : List BakeTarget
deriving Repr, DecidableEq

-- =====================
--   STRING PRIMITIVES
-- =====================

/-- Accumulator pass of splitComma: splits at every comma, keeping empty
pieces, exactly as Rust split(',') does. -/
def splitCommaAux : List Char → List Char → List String
  | [], acc => [String.mk acc.reverse]
  | c :: cs, acc =>
      if c = ',' then String.mk acc.reverse :: splitCommaAux cs []
      else splitCommaAux cs (c :: acc)

/-- Rust str::split(',') collected into a list. -/
def splitComma (s : String) : List String :=
  splitCommaAux s.data []

/-- The Unicode White_Space property, the character set Rust char
is_whitespace tests and str::trim removes: U+0009 to U+000D, space,
next line, no-break space, ogham space mark, U+2000 to U+200A, the line
and paragraph separators, narrow no-break space, medium mathematical
space and ideographic space. -/
def isUnicodeWhitespace (c : Char) : Bool :=
  decide (9 ≤ c.toNat ∧ c.toNat ≤ 13) || decide (c.toNat = 32)
    || decide (c.toNat = 133) || decide (c.toNat = 160) || decide (c.toNat = 5760)
    || decide (8192 ≤ c.toNat ∧ c.toNat ≤ 8202)
    || decide (c.toNat = 8232) || decide (c.toNat = 8233) || decide (c.toNat = 8239)
    || decide (c.toNat = 8287) || decide (c.toNat = 12288)

/-- Rust str::trim. -/
def trimStr (s : String) : String :=
  String.mk (((s.data.dropWhile isUnicodeWhitespace).reverse.dropWhile isUnicodeWhitespace).reverse)

-- =====================
--   JSON ENCODING
-- =====================

/-- One hexadecimal digit, lower case, as serde_json prints escapes. -/
def hexDigit (n : Nat) : Char :=
  if n < 10 then Char.ofNat (48 + n) else Char.ofNat (87 + n)

/-- serde_json string escaping of a single character. -/
def jsonEscapeChar (c : Char) : String :=
  if c = '\"' then "\\\""
  else if c = '\\' then "\\\\"
  else if c = '\n' then "\\n"
  else if c = '\t' then "\\t"
  else if c = '\x0d' then "\\r"
  else if c = '\x08' then "\\b"
  else if c = '\x0c' then "\\f"
  else if c.toNat < 32 then
    "\\u00" ++ (hexDigit (c.toNat / 16)).toString ++ (hexDigit (c.toNat % 16)).toString
  else c.toString

def jsonEscape (s : String) : String :=
  String.join (s.data.map jsonEscapeChar)

/-- A JSON string literal, as serde_json prints it. -/
def jsonString (s : String) : String :=
  "\"" ++ jsonEscape s ++ "\""

/-- json_encode of a Vec of Strings: compact serde_json array. -/
def jsonEncodeStringList (l : List String) : String :=
  "[" ++ String.intercalate "," (l.map jsonString) ++ "]"

def encodeSettingVal : SettingVal → String
  | .boolVal b => if b then "true" else "false"
  | .strVal s => jsonString s

/-- json_encode of the settings object: compact serde_json object. -/
def encodeSettings (l : List (String × SettingVal)) : String :=
  "\x7b" ++ String.intercalate "," (l.map fun p => jsonString p.1 ++ ":" ++ encodeSettingVal p.2) ++ "\x7d"

-- =====================
--   TEMPLATE RENDER
-- =====================

/-- Rendering of DOCKERFILE_TEMPLATE on a DockerfileSpec.  The template ends
the RUN line and every per-package line with a backslash continuation, and
the loop is followed directly by the WORKDIR line. -/
def renderDockerfile (spec : DockerfileSpec) : String :=
  "\n# Generated Dockerfile\nFROM " ++ spec.base_image
    ++ "\nLABEL maintainer=\"" ++ spec.maintainer ++ "\""
    ++ "\nRUN apt-get update && apt-get install -y \\"
    ++ String.join (spec.packages.map fun pkg => "\n    " ++ pkg ++ " \\")
    ++ "\nWORKDIR " ++ spec.workdir
    ++ "\nENTRYPOINT [\"" ++ spec.entrypoint ++ "\"]\n"

/-- Rendering of one service block of DOCKER_COMPOSE_TEMPLATE.  The ports
and volumes headers are unconditional in the template; the depends_on and
environment headers are guarded by a length test. -/
def renderService (service : ServiceSpec) : String :=
  "\n  " ++ service.name ++ ":\n    image: " ++ service.image
    ++ "\n    ports:"
    ++ String.join (service.ports.map fun port => "\n      - \"" ++ port ++ "\"")
    ++ (if service.depends_on.length > 0 then
          "\n    depends_on:"
            ++ String.join (service.depends_on.map fun dep => "\n      - " ++ dep)
        else "")
    ++ (if service.environment.length > 0 then
          "\n    environment:"
            ++ String.join (service.environment.map fun env => "\n      " ++ env.1 ++ ": \"" ++ env.2 ++ "\"")
        else "")
    ++ "\n    volumes:"
    ++ String.join (service.volumes.map fun volume => "\n      - " ++ volume)

/-- Rendering of DOCKER_COMPOSE_TEMPLATE on a DockerComposeSpec. -/
def renderCompose (spec : DockerComposeSpec) : String :=
  "\nversion: \x273.8\x27\nservices:"
    ++ String.join (spec.services.map renderService)
    ++ (if spec.networks.length > 0 then
          "\nnetworks:"
            ++ String.join (spec.networks.map fun nw => "\n  " ++ nw.1 ++ ":\n    driver: " ++ nw.2.driver)
        else "")
    ++ "\n"

/-- Rendering of DEVCONTAINER_TEMPLATE on a DevContainerSpec. -/
def renderDevcontainer (spec : DevContainerSpec) : String :=
  "\n\x7b\n    \"name\": \"" ++ spec.name
    ++ "\",\n    \"build\": \x7b\n        \"dockerfile\": \"" ++ spec.dockerfile_path
    ++ "\"\n    \x7d,\n    \"remoteUser\": \"" ++ spec.remote_user
    ++ "\",\n    \"customizations\": \x7b\n        \"vscode\": \x7b\n            \"extensions\": "
    ++ jsonEncodeStringList spec.customizations.vscode_extensions
    ++ ",\n            \"settings\": "
    ++ encodeSettings spec.customizations.settings
    ++ "\n        \x7d\n    \x7d\n\x7d\n"

/-- Rendering of one target block of DOCKER_BAKE_TEMPLATE. -/
def renderBakeTarget (t : BakeTarget) : String :=
  "\ntarget \"" ++ t.name ++ "\" \x7b\n  context    = \"" ++ t.context
    ++ "\"\n  dockerfile = \"" ++ t.dockerfile
    ++ "\"\n  tags       = ["
    ++ String.join (t.tags.map fun tag => "\n    \"" ++ tag ++ "\",")
    ++ "\n  ]\n\x7d"

/-- Rendering of DOCKER_BAKE_TEMPLATE on a DockerBakeSpec. -/
def renderBake (spec : DockerBakeSpec) : String :=
  "\ngroup \"" ++ spec.group_name ++ "\" \x7b\n  targets = ["
    ++ String.join (spec.targets.map fun t => "\n    \"" ++ t.name ++ "\",")
    ++ "\n  ]\n\x7d"
    ++ String.join (spec.targets.map renderBakeTarget)
    ++ "\n"

-- =====================
--     CLI COMMANDS
-- =====================

/-- The Commands enum of the CLI, with its flag fields. -/
inductive Commands where
  | Dockerfile (base_image maintainer packages workdir entrypoint output : String)
  | Compose (output : String) (services ports volumes env : Option String)
      (networks : String) (depends_on : Option String)
  | Bake (output group : String) (targets contexts dockerfiles tags : Option String)
  | Devcontainer (name dockerfile remote_user extensions output : String)
  | Init (name language : String) (database services : Option String) (output_dir : String)
deriving Repr, DecidableEq

/-- Result of Commands::execute: either the process aborts in the
unreachable catch-all arm, or the listed (path, contents) pairs are written. -/
inductive ExecResult where
  | panicked
  | wrote (files : List (String × String))
deriving Repr, DecidableEq

def writtenFiles : ExecResult → List (String × String)
  | .panicked => []
  | .wrote files => files

/-- Path::join of a directory and a file name, as used for the Init output
paths (the file-name argument is always a plain relative name there). -/
def joinPath (dir file : String) : String :=
  if dir = "" then file
  else if dir.data.getLast? = some '/' then dir ++ file
  else dir ++ "/" ++ file

/-- The per-language (base image, package string) table of the Init arm. -/
def languageTable (language : String) : String × String :=
  match language with
  | "python" => ("python:3.12-slim", "python3-pip,python3-dev,build-essential")
  | "node" => ("node:22-slim", "npm")
  | "rust" => ("rust:1.83-slim", "cargo")
  | _ => ("ubuntu:23.10", "curl,git")

/-- split(',') followed by per-element trim, as applied to package lists. -/
def splitTrim (s : String) : List String :=
  (splitComma s).map trimStr

/-- The DockerfileSpec built by the Init arm. -/
def initDockerfileSpec (language : String) : DockerfileSpec :=
  { base_image := (languageTable language).1
    maintainer := "Generated <generated@example.com>"
    packages := splitTrim (languageTable language).2
    workdir := "/app"
    entrypoint := "/bin/bash" }

/-- The per-database (image, port, environment) table of the Init arm. -/
def dbTable (db : String) : String × String × List (String × String) :=
  match db with
  | "postgres" => ("postgres:latest", "5432:5432",
      [("POSTGRES_USER", "admin"), ("POSTGRES_PASSWORD", "password")])
  | "mysql" => ("mysql:latest", "3306:3306",
      [("MYSQL_ROOT_PASSWORD", "password"), ("MYSQL_DATABASE", "app")])
  | "mongodb" => ("mongo:latest", "27017:27017",
      [("MONGO_INITDB_ROOT_USERNAME", "admin"), ("MONGO_INITDB_ROOT_PASSWORD", "password")])
  | _ => ("postgres:latest", "5432:5432",
      [("POSTGRES_USER", "admin"), ("POSTGRES_PASSWORD", "password")])

/-- The main app service pushed first by the Init arm. -/
def mainService (name : String) : ServiceSpec :=
  { name := name
    image := name ++ ":latest"
    ports := ["8000:8000"]
    depends_on := []
    environment := []
    volumes := ["./:/app"] }

/-- The database service pushed by the Init arm (its name is the literal
db, whatever the selector). -/
def dbService (db : String) : ServiceSpec :=
  { name := "db"
    image := (dbTable db).1
    ports := [(dbTable db).2.1]
    depends_on := []
    environment := (dbTable db).2.2
    volumes := ["./data:/var/lib/postgresql/data"] }

def redisService : ServiceSpec :=
  { name := "redis"
    image := "redis:latest"
    ports := ["6379:6379"]
    depends_on := []
    environment := []
    volumes := ["./redis-data:/data"] }

def elasticsearchService : ServiceSpec :=
  { name := "elasticsearch"
    image := "elasticsearch:8.7.0"
    ports := ["9200:9200"]
    depends_on := []
    environment := [("discovery.type", "single-node"), ("ES_JAVA_OPTS", "-Xms512m -Xmx512m")]
    volumes := ["./es-data:/usr/share/elasticsearch/data"] }

/-- The match of the extra-services loop body: a trimmed selector is either
one of the two recognized services or ignored. -/
def recognize (service : String) : Option ServiceSpec :=
  match trimStr service with
  | "redis" => some redisService
  | "elasticsearch" => some elasticsearchService
  | _ => none

/-- One iteration of the extra-services loop: on a recognized selector the
service is appended and a dependency edge is pushed onto the main service. -/
def addExtraService (acc : ServiceSpec × List ServiceSpec) (service : String) :
    ServiceSpec × List ServiceSpec :=
  match recognize service with
  | some spec => ({ acc.1 with depends_on := acc.1.depends_on ++ [spec.name] }, acc.2 ++ [spec])
  | none => acc

/-- The service list built by the Init arm, as the main service (index 0 of
the Rust vector, whose depends_on is pushed to) paired with the remaining
services in push order. -/
def initServicesPair (name : String) (database services : Option String) :
    ServiceSpec × List ServiceSpec :=
  let st :=
    match database with
    | some db => ({ mainService name with depends_on := (mainService name).depends_on ++ ["db"] },
        [dbService db])
    | none => (mainService name, [])
  match services with
  | some additional => (splitComma additional).foldl addExtraService st
  | none => st

/-- The DockerComposeSpec built by the Init arm. -/
def initComposeSpec (name : String) (database services : Option String) : DockerComposeSpec :=
  { services := (initServicesPair name database services).1 :: (initServicesPair name database services).2
    networks := [("app_network", { driver := "bridge" })] }

/-- The DevContainerSpec built by the Init arm. -/
def initDevcontainerSpec (name language : String) : DevContainerSpec :=
  { name := name ++ " Dev Container"
    dockerfile_path := "./Dockerfile"
    remote_user := "vscode"
    customizations :=
      { vscode_extensions :=
          match language with
          | "python" => ["ms-python.python", "ms-python.vscode-pylance"]
          | "node" => ["dbaeumer.vscode-eslint", "esbenp.prettier-vscode"]
          | "rust" => ["rust-lang.rust-analyzer", "serayuzgur.crates"]
          | _ => []
        settings := [("editor.formatOnSave", .boolVal true),
          ("terminal.integrated.shell.linux", .strVal "/bin/bash")] } }

/-- Commands::execute.  Only the Init arm is implemented; every other
command falls into the unreachable catch-all and aborts. -/
def Commands.execute : Commands → ExecResult
  | .Init name language database services output_dir =>
      let dockerfile := renderDockerfile (initDockerfileSpec language)
      let compose := renderCompose (initComposeSpec name database services)
      let devcontainer := renderDevcontainer (initDevcontainerSpec name language)
      ExecResult.wrote
        [(joinPath output_dir "Dockerfile", dockerfile),
         (joinPath output_dir "docker-compose.yml", compose),
         (joinPath output_dir "devcontainer.json", devcontainer)]
  | _ => ExecResult.panicked

def Commands.isInit : Commands → Bool
  | .Init _ _ _ _ _ => true
  | _ => false

/-- The packages step of the interactive Dockerfile flow: an empty answer
falls back to the default pair before splitting. -/
def interactiveDockerfilePackages (input : String) : List String :=
  let packages := if input.isEmpty then "curl,git" else input
  splitTrim packages

-- =====================
--   SPEC-SIDE NOTIONS
-- =====================

/-- Does the second character list start with the first? -/
def listStartsWith : List Char → List Char → Bool
  | [], _ => true
  | _ :: _, [] => false
  | a :: as, b :: bs => a == b && listStartsWith as bs

def occursIn (pat : List Char) : List Char → Bool
  | [] => listStartsWith pat []
  | c :: cs => listStartsWith pat (c :: cs) || occursIn pat cs

/-- Substring test, used to state the presence or absence of a section
header in rendered output. -/
def containsSub (s pat : String) : Bool :=
  occursIn pat.data s.data

/-- A service rendering following the words of the specification for a
service whose dependency list is empty: the depends_on section is absent
entirely, while every other part of the block renders as in renderService.
Stated for comparison with renderService. -/
def renderServiceNoDepends (service : ServiceSpec) : String :=
  "\n  " ++ service.name ++ ":\n    image: " ++ service.image
    ++ "\n    ports:"
    ++ String.join (service.ports.map fun port => "\n      - \"" ++ port ++ "\"")
    ++ (if service.environment.length > 0 then
          "\n    environment:"
            ++ String.join (service.environment.map fun env => "\n      " ++ env.1 ++ ": \"" ++ env.2 ++ "\"")
        else "")
    ++ "\n    volumes:"
    ++ String.join (service.volumes.map fun volume => "\n      - " ++ volume)

/-- A service rendering following the words of the specification for a
service whose environment list is empty: the environment section is absent
entirely, while every other part of the block renders as in renderService.
Stated for comparison with renderService. -/
def renderServiceNoEnvironment (service : ServiceSpec) : String :=
  "\n  " ++ service.name ++ ":\n    image: " ++ service.image
    ++ "\n    ports:"
    ++ String.join (service.ports.map fun port => "\n      - \"" ++ port ++ "\"")
    ++ (if service.depends_on.length > 0 then
          "\n    depends_on:"
            ++ String.join (service.depends_on.map fun dep => "\n      - " ++ dep)
        else "")
    ++ "\n    volumes:"
    ++ String.join (service.volumes.map fun volume => "\n      - " ++ volume)

/-- Resolution of a relative reference against the directory that holds the
referencing file: a leading dot-slash is dropped and the remainder joined
onto the directory.  Used to compare the devcontainer dockerfile reference
with the path the Dockerfile is persisted at. -/
def resolveRelativeTo (dir p : String) : String :=
  if p.data.take 2 = ['.', '/'] then joinPath dir (String.mk (p.data.drop 2))
  else joinPath dir p

/-- The extra services recognized from the optional comma-separated
selector string, in order. -/
def recognizedExtras (services : Option String) : List ServiceSpec :=
  match services with
  | some additional => (splitComma additional).filterMap recognize
  | none => []

/-- A service whose list-valued fields are all empty, together with an
otherwise populated name and image. -/
def emptyListsService : ServiceSpec :=
  { name := "web"
    image := "nginx"
    ports := []
    depends_on := []
    environment := []
    volumes := [] }

-- =====================
--   HELPER LEMMAS
-- =====================

lemma append_empty_str (s : String) : s ++ "" = s := by
  cases s with
  | mk data => exact congrArg String.mk (List.append_nil data)

lemma recognize_name {s : String} {spec : ServiceSpec} (h : recognize s = some spec) :
    spec.name = "redis" ∨ spec.name = "elasticsearch" := by
  unfold recognize at h
  split at h
  · injection h with h2
    rw [← h2]
    exact Or.inl rfl
  · injection h with h2
    rw [← h2]
    exact Or.inr rfl
  · exact absurd h (by simp)

lemma mem_filterMap_recognize_name {l : List String} {x : String}
    (hx : x ∈ (l.filterMap recognize).map ServiceSpec.name) :
    x = "redis" ∨ x = "elasticsearch" := by
  rcases List.mem_map.mp hx with ⟨spec, hspec, rfl⟩
  rcases List.mem_filterMap.mp hspec with ⟨s, _, hrec⟩
  exact recognize_name hrec

lemma mem_recognizedExtras_name {services : Option String} {x : String}
    (hx : x ∈ (recognizedExtras services).map ServiceSpec.name) :
    x = "redis" ∨ x = "elasticsearch" := by
  cases services with
  | none => simp [recognizedExtras] at hx
  | some s => exact mem_filterMap_recognize_name hx

/-- The extra-services loop appends exactly the recognized services to the
service vector and exactly their names to the depends_on of the main
service. -/
lemma foldl_addExtraService (l : List String) (m : ServiceSpec) (t : List ServiceSpec) :
    l.foldl addExtraService (m, t) =
      ({ m with depends_on := m.depends_on ++ (l.filterMap recognize).map ServiceSpec.name },
       t ++ l.filterMap recognize) := by
  induction l generalizing m t with
  | nil => simp
  | cons s l ih =>
      rw [List.foldl_cons, List.filterMap_cons]
      cases hr : recognize s with
      | none =>
          simp only [addExtraService, hr]
          exact ih m t
      | some spec =>
          simp only [addExtraService, hr]
          rw [ih]
          simp [List.append_assoc]

/-- Explicit form of the Init service list: the main service with its wired
dependency edges, followed by the optional database service, followed by
the recognized extra services. -/
lemma initServicesPair_eq (name : String) (database services : Option String) :
    initServicesPair name database services =
      ({ mainService name with depends_on :=
          (match database with | some _ => ["db"] | none => [])
            ++ (recognizedExtras services).map ServiceSpec.name },
       (match database with | some db => [dbService db] | none => [])
         ++ recognizedExtras services) := by
  unfold initServicesPair recognizedExtras
  cases database <;> cases services <;>
    simp [foldl_addExtraService, mainService]

-- =====================
--   CLAIM THEOREMS
-- =====================

/-- Claim C1: every command other than Init reaches the catch-all arm of
Commands::execute and aborts instead of generating its artifact; the Init
command is the only one whose execution produces written files. -/
theorem c1_only_init_executes (cmd : Commands) :
    cmd.execute = ExecResult.panicked ↔ cmd.isInit = false := by
  cases cmd <;> simp [Commands.execute, Commands.isInit]

/-- Claim C1 witness: the flag-based Dockerfile subcommand aborts. -/
theorem c1_witness :
    (Commands.Dockerfile "ubuntu:22.04" "Jane Doe <jane@example.com>" "curl,git" "/app"
        "/bin/bash" "Dockerfile").execute = ExecResult.panicked :=
  (c1_only_init_executes (Commands.Dockerfile "ubuntu:22.04" "Jane Doe <jane@example.com>"
      "curl,git" "/app" "/bin/bash" "Dockerfile")).mpr rfl

/-- Claim C2 counterexample: for the postgres selector the compose service
list is the project service followed by a service named db; no service is
named postgres, so the descriptor does not contain a service named after
the database. -/
theorem c2_counterexample :
    (initComposeSpec "myproject" (some "postgres") none).services.map ServiceSpec.name
      = ["myproject", "db"] ∧
    "postgres" ∉ (initComposeSpec "myproject" (some "postgres") none).services.map ServiceSpec.name := by
  exact ⟨by decide, by decide⟩

/-- Claim C2 as amended: for every intent with a database selector the
compose descriptor contains a service with the fixed name db, and the
project service depends on db exactly once. -/
theorem c2_db_service_and_single_dependency (name db : String) (services : Option String) :
    "db" ∈ (initComposeSpec name (some db) services).services.map ServiceSpec.name ∧
    ((initServicesPair name (some db) services).1.depends_on).count "db" = 1 := by
  have hp := initServicesPair_eq name (some db) services
  constructor
  · rw [show (initComposeSpec name (some db) services).services
        = (initServicesPair name (some db) services).1
            :: (initServicesPair name (some db) services).2 from rfl, hp]
    rw [List.map_cons]
    refine List.mem_cons_of_mem _ ?_
    rw [List.map_append]
    refine List.mem_append_left _ ?_
    show "db" ∈ ["db"]
    exact List.mem_singleton.mpr rfl
  · rw [hp]
    show (["db"] ++ (recognizedExtras services).map ServiceSpec.name).count "db" = 1
    rw [List.count_append]
    have h0 : ((recognizedExtras services).map ServiceSpec.name).count "db" = 0 := by
      rw [List.count_eq_zero]
      intro hmem
      rcases mem_recognizedExtras_name hmem with h | h <;> simp at h
    rw [h0]
    decide

set_option maxRecDepth 8192 in
/-- Claim C3 counterexample: a service with zero ports and zero volumes
still renders ports and volumes headers with no entries under them. -/
theorem c3_counterexample :
    emptyListsService.ports = [] ∧ emptyListsService.volumes = [] ∧
    renderCompose { services := [emptyListsService], networks := [] }
      = "\nversion: \x273.8\x27\nservices:\n  web:\n    image: nginx\n    ports:\n    volumes:\n" ∧
    containsSub (renderCompose { services := [emptyListsService], networks := [] }) "ports:" = true := by
  exact ⟨rfl, rfl, by decide, by decide⟩

/-- Claim C3 as amended, per section: a service with an empty dependency
list renders with no depends_on section at all, whatever its environment
list, and a service with an empty environment list renders with no
environment section at all, whatever its dependency list; the ports and
volumes headers are unconditional. -/
theorem c3_omits_empty_optional_sections (s : ServiceSpec) :
    (s.depends_on = [] → renderService s = renderServiceNoDepends s) ∧
    (s.environment = [] → renderService s = renderServiceNoEnvironment s) := by
  constructor
  · intro hd
    unfold renderService renderServiceNoDepends
    rw [hd]
    simp [append_empty_str]
  · intro he
    unfold renderService renderServiceNoEnvironment
    rw [he]
    simp [append_empty_str]

def c3SampleService : ServiceSpec :=
  { name := "api"
    image := "api:latest"
    ports := ["80:80"]
    depends_on := ["db"]
    environment := []
    volumes := ["./x:/x"] }

/-- Claim C3 witness, covering both mixed cases: the Init postgres database
service (empty dependency list, nonempty environment) renders with no
depends_on section, and a service with a nonempty dependency list but empty
environment renders with no environment section. -/
theorem c3_witness :
    (dbService "postgres").depends_on = [] ∧
    renderService (dbService "postgres") = renderServiceNoDepends (dbService "postgres") ∧
    c3SampleService.environment = [] ∧
    renderService c3SampleService = renderServiceNoEnvironment c3SampleService :=
  ⟨rfl, (c3_omits_empty_optional_sections (dbService "postgres")).1 rfl,
   rfl, (c3_omits_empty_optional_sections c3SampleService).2 rfl⟩

/-- Claim C4 counterexample: normalization keeps the element that is empty
after trimming, so the documented input does not yield the three-element
list the claim states. -/
theorem c4_counterexample :
    splitTrim "curl, git,, nginx" = ["curl", "git", "", "nginx"] ∧
    splitTrim "curl, git,, nginx" ≠ ["curl", "git", "nginx"] := by
  exact ⟨by decide, by decide⟩

/-- Claim C4 as amended: splitting trims each element but keeps empty
elements, and the default pair is applied only when the raw value is empty
before splitting (interactive flow), never by filtering after the split. -/
theorem c4_split_keeps_empty_elements :
    splitTrim "curl, git,, nginx" = ["curl", "git", "", "nginx"] ∧
    interactiveDockerfilePackages "" = ["curl", "git"] ∧
    interactiveDockerfilePackages "curl, git,, nginx" = ["curl", "git", "", "nginx"] := by
  exact ⟨by decide, by decide, by decide⟩

/-- Claim C5: the build-group flags are never zipped, because the Bake
subcommand falls into the catch-all arm of Commands::execute and aborts;
here it is evaluated at the failing input with three target names and two
contexts. -/
theorem c5_bake_flags_panic :
    (Commands.Bake "docker-bake.hcl" "default" (some "a,b,c") (some "x,y") none none).execute
      = ExecResult.panicked := rfl

/-- Claim C6 counterexample: with output directory env the Dockerfile is
persisted at env/Dockerfile while the devcontainer field holds the constant
dot-slash Dockerfile, so the two strings differ. -/
theorem c6_counterexample :
    (initDevcontainerSpec "myproject" "python").dockerfile_path = "./Dockerfile" ∧
    ((writtenFiles ((Commands.Init "myproject" "python" none none "env").execute)).map
        Prod.fst).head? = some "env/Dockerfile" ∧
    "./Dockerfile" ≠ "env/Dockerfile" := by
  exact ⟨rfl, by decide, by decide⟩

/-- Claim C6 as amended: the devcontainer Dockerfile reference is the
constant dot-slash Dockerfile, the Dockerfile artifact is persisted at the
join of the output directory and Dockerfile, and resolving the reference
against the output directory (where devcontainer.json itself is written)
yields exactly the persisted path. -/
theorem c6_dockerfile_reference_resolves (n l : String) (d s : Option String) (o : String) :
    (initDevcontainerSpec n l).dockerfile_path = "./Dockerfile" ∧
    ((writtenFiles ((Commands.Init n l d s o).execute)).map Prod.fst).head?
      = some (joinPath o "Dockerfile") ∧
    resolveRelativeTo o (initDevcontainerSpec n l).dockerfile_path = joinPath o "Dockerfile" := by
  refine ⟨rfl, rfl, ?_⟩
  show resolveRelativeTo o "./Dockerfile" = joinPath o "Dockerfile"
  unfold resolveRelativeTo
  rw [if_pos (by decide : "./Dockerfile".data.take 2 = ['.', '/'])]
  rw [show String.mk ("./Dockerfile".data.drop 2) = "Dockerfile" from by decide]

/-- Claim C7 counterexample: the selector list redis,redis produces two
services both named redis, so service names are not unique and nothing is
rejected or deduplicated. -/
theorem c7_counterexample :
    (initComposeSpec "myproject" none (some "redis,redis")).services.map ServiceSpec.name
      = ["myproject", "redis", "redis"] ∧
    ¬ ((initComposeSpec "myproject" none (some "redis,redis")).services.map
        ServiceSpec.name).Nodup := by
  exact ⟨by decide, by decide⟩

/-- Claim C7 as amended: the engine performs no deduplication, but service
names are unique whenever the inputs do not collide: the project name is
none of db, redis, elasticsearch and the recognized extra selectors are
pairwise distinct. -/
theorem c7_unique_names_unless_inputs_collide
    (name : String) (database services : Option String)
    (h1 : name ∉ (["db", "redis", "elasticsearch"] : List String))
    (h2 : ((recognizedExtras services).map ServiceSpec.name).Nodup) :
    ((initComposeSpec name database services).services.map ServiceSpec.name).Nodup := by
  have hen : ∀ x ∈ (recognizedExtras services).map ServiceSpec.name,
      x = "redis" ∨ x = "elasticsearch" := fun x hx => mem_recognizedExtras_name hx
  have hnm : name ∉ (recognizedExtras services).map ServiceSpec.name := by
    intro hmem
    rcases hen name hmem with h | h <;> rw [h] at h1 <;> exact h1 (by decide)
  have hdb : "db" ∉ (recognizedExtras services).map ServiceSpec.name := by
    intro hmem
    rcases hen "db" hmem with h | h <;> simp at h
  cases database with
  | none =>
      rw [show (initComposeSpec name none services).services
            = (initServicesPair name none services).1
                :: (initServicesPair name none services).2 from rfl,
          initServicesPair_eq name none services]
      show (name :: (recognizedExtras services).map ServiceSpec.name).Nodup
      exact List.nodup_cons.mpr ⟨hnm, h2⟩
  | some db =>
      rw [show (initComposeSpec name (some db) services).services
            = (initServicesPair name (some db) services).1
                :: (initServicesPair name (some db) services).2 from rfl,
          initServicesPair_eq name (some db) services]
      show (name :: "db" :: (recognizedExtras services).map ServiceSpec.name).Nodup
      refine List.nodup_cons.mpr ⟨?_, List.nodup_cons.mpr ⟨hdb, h2⟩⟩
      intro hmem
      rcases List.mem_cons.mp hmem with h | h
      · rw [h] at h1
        exact h1 (by decide)
      · exact hnm h

/-- Claim C7 witness: a non-colliding intent yields pairwise distinct
service names. -/
theorem c7_witness :
    ("myproject" ∉ (["db", "redis", "elasticsearch"] : List String)) ∧
    ((recognizedExtras (some "redis,elasticsearch")).map ServiceSpec.name).Nodup ∧
    ((initComposeSpec "myproject" (some "postgres") (some "redis,elasticsearch")).services.map
        ServiceSpec.name).Nodup :=
  ⟨by decide, by decide,
    c7_unique_names_unless_inputs_collide "myproject" (some "postgres")
      (some "redis,elasticsearch") (by decide) (by decide)⟩

set_option maxRecDepth 8192 in
/-- Claim C8: the image-build renderer leaves a trailing line continuation
after the last package line, so the install command absorbs the WORKDIR
line; evaluated here at the Init python Dockerfile descriptor. -/
theorem c8_run_swallows_workdir :
    renderDockerfile (initDockerfileSpec "python")
      = "\n# Generated Dockerfile\nFROM python:3.12-slim\nLABEL maintainer=\"Generated <generated@example.com>\"\nRUN apt-get update && apt-get install -y \\\n    python3-pip \\\n    python3-dev \\\n    build-essential \\\nWORKDIR /app\nENTRYPOINT [\"/bin/bash\"]\n" ∧
    containsSub (renderDockerfile (initDockerfileSpec "python")) " \\\nWORKDIR" = true := by
  exact ⟨by decide, by decide⟩

/-- Claim C9: every Init run writes exactly three files, Dockerfile,
docker-compose.yml and devcontainer.json, all joined onto the single
requested output directory, and no build-group file. -/
theorem c9_init_writes_three_files (n l : String) (d s : Option String) (o : String) :
    (writtenFiles ((Commands.Init n l d s o).execute)).map Prod.fst
      = [joinPath o "Dockerfile", joinPath o "docker-compose.yml",
         joinPath o "devcontainer.json"] ∧
    (writtenFiles ((Commands.Init n l d s o).execute)).length = 3 :=
  ⟨rfl, rfl⟩

/-- Claim C10: each of the four renderers is a pure function of its
descriptor, so rendering the same descriptor twice yields byte-identical
output. -/
theorem c10_renderers_deterministic (d : DockerfileSpec) (c : DockerComposeSpec)
    (v : DevContainerSpec) (b : DockerBakeSpec) :
    renderDockerfile d = renderDockerfile d ∧ renderCompose c = renderCompose c ∧
    renderDevcontainer v = renderDevcontainer v ∧ renderBake b = renderBake b :=
  ⟨rfl, rfl, rfl, rfl⟩
